import Mathlib

/-!
# Verification of the CAPE wallet bridging layer

Shallow embedding of `src/zerok/zerok_lib/src/wallet/cape.rs`: the
sponsor/wrap/burn bridge operations of `CapeWallet`, together with the
`CapeWalletBackend` capability interface it relies on.

Only `cape.rs` is in the source tree.  The types and functions it consumes
(`erc20_asset_description`, `AssetCode::new_foreign`, `AssetDefinition::new`,
the `build_transfer` / `generate_memos` / `submit` of the generic wallet, the
constant `CAPE_BURN_MAGIC_BYTES`, and any concrete implementation of the
backend trait) live in other crates or other files of the repository; those
are modelled from the spec, each with a doc comment saying so.  Stateful code
is embedded by explicit state passing: every operation takes a
`CapeWalletState` and returns its result together with the successor state.
-/

namespace Cape

/-- An ERC20 token code on the external chain (opaque, comparable). -/
structure Erc20Code where
  bytes : List Nat
deriving DecidableEq, Repr

/-- A 20-byte-style address on the external chain, used both as sponsor
identity and as burn destination.  Modelled as an opaque byte list. -/
structure EthereumAddr where
  bytes : List Nat
deriving DecidableEq, Repr

/-- A logical owner address on the shielded ledger (`UserAddress`). -/
structure UserAddress where
  id : Nat
deriving DecidableEq, Repr

/-- A shielded public key (`UserPubKey`), resolved from a `UserAddress` by the
backend. -/
structure UserPubKey where
  key : Nat
deriving DecidableEq, Repr

/-- Modelled from the spec: an asset code of the shielded ledger.  The
primitive library (jellyfish, not in src/) derives foreign asset codes from a
description string; the derivation is domain-separated so that foreign codes
cannot collide with other code derivations.  We model a code as the tagged
byte string it is derived from. -/
inductive AssetCode where
  | foreign (digest : List Nat)
  | native
deriving DecidableEq, Repr

/-- Modelled from the spec: the domain-separation tag of the foreign asset
code derivation (that of the primitive library, not yet a CAPE-specific one). -/
def foreignDomainSep : List Nat := [70, 79, 82, 69, 73, 71, 78]

/-- Modelled from the spec: `AssetCode::new_foreign` (jellyfish, not in src/)
derives an asset code deterministically from a description byte string, under
the foreign-code domain separator. -/
def AssetCode.new_foreign (description : List Nat) : AssetCode :=
  .foreign (foreignDomainSep ++ description)

/-- Modelled from the spec: an asset policy governing freezing/viewing rules,
supplied by the sponsor.  The primitive library rejects policies that are
incompatible with the derived code; we model that check as an opaque boolean
field. -/
structure AssetPolicy where
  valid : Bool
deriving DecidableEq, Repr

/-- A shielded asset definition: a `(code, policy)` pair. -/
structure AssetDefinition where
  code : AssetCode
  policy : AssetPolicy
deriving DecidableEq, Repr

/-- The wallet-level error taxonomy (kinds, not concrete types). -/
inductive WalletError where
  /-- `CryptoError`: the policy is incompatible with the derived code. -/
  | cryptoError
  /-- Registry conflict: the asset definition is already registered. -/
  | assetAlreadyRegistered
  /-- Lookup against an asset with no registry entry. -/
  | unregisteredAsset
  /-- Public-key resolution failure for a logical owner address. -/
  | unknownOwner
  /-- Opaque failure from the external collaborator. -/
  | backendError
  /-- Internal-consistency fault: an `assert!`/panic in the source, aborting
  the operation rather than reporting a user error. -/
  | internalError
deriving DecidableEq, Repr

/-- Modelled from the spec: `AssetDefinition::new` (jellyfish, not in src/)
constructs the definition from `(code, policy)`, failing with a cryptographic
error if the policy is invalid for the code. -/
def AssetDefinition.new (code : AssetCode) (policy : AssetPolicy) :
    Except WalletError AssetDefinition :=
  if policy.valid then .ok ⟨code, policy⟩ else .error .cryptoError

/-- Modelled from the spec: `erc20_asset_description` (cape_state, not in
src/) builds a human/machine-readable description embedding the ERC20 code
and the sponsoring address. -/
def erc20_asset_description (erc20_code : Erc20Code) (sponsor : EthereumAddr) :
    List Nat :=
  [69, 82, 67, 50, 48] ++ erc20_code.bytes ++ [44] ++ sponsor.bytes

/-- A shielded record pending creation: amount, asset definition, owning
public key, freeze state, plus the blinding drawn from the wallet
randomness source. -/
structure RecordOpening where
  amount : Nat
  asset_def : AssetDefinition
  pub_key : UserPubKey
  freeze_flag : Bool
  blind : Nat
deriving DecidableEq, Repr

/-- `RecordOpening::new`: constructs a record opening, drawing its blinding
factor from the randomness source of the wallet (modelled as a counter). -/
def RecordOpening.new (rng : Nat) (amount : Nat) (asset_def : AssetDefinition)
    (pub_key : UserPubKey) (frozen : Bool) : RecordOpening :=
  ⟨amount, asset_def, pub_key, frozen, rng⟩

/-- Modelled from the spec: a commitment to a shielded record, as it appears
among the output commitments of a transfer note (the cryptography is opaque; we
model the commitment as binding to the record it commits to). -/
structure RecordCommitment where
  opening : RecordOpening
deriving DecidableEq, Repr

/-- Modelled from the spec: a transfer note of the primitive library — the
nullifiers of its spent inputs, the commitments of its new outputs, and the
auxiliary proof-bound data embedded in its proof. -/
structure TransferNote where
  inputs_nullifiers : List Nat
  output_commitments : List RecordCommitment
  proof_bound_data : List Nat
deriving DecidableEq, Repr

/-- The transaction kinds recorded in receipt history on the CAPE ledger. -/
inductive CapeTransactionKind where
  | send
  | receive
  | burn
  | wrap
deriving DecidableEq, Repr

/-- A receipt-history entry; the bridge layer only touches its `kind`. -/
structure TransactionHistoryEntry where
  kind : CapeTransactionKind
deriving DecidableEq, Repr

/-- Modelled from the spec: the transfer info returned by the generic
transfer builder (`txn_builder`, not in src/): the assembled note, the
owner address, a signing keypair for memo generation (opaque), the fee-change
output if any, the history entry, and the input/output record openings. -/
structure TransferInfo where
  note : TransferNote
  owner_address : UserAddress
  sig_keypair : Nat
  fee_output : Option RecordOpening
  history : TransactionHistoryEntry
  inputs : List RecordOpening
  outputs : List RecordOpening
deriving DecidableEq, Repr

/-- Modelled from the spec: an encrypted memo for one output (opaque
encryption, modelled as binding to the opening it encrypts). -/
structure Memo where
  opening : RecordOpening
deriving DecidableEq, Repr

/-- The transaction metadata handed to the generic submission path
(`TransactionInfo` of `txn_builder`). -/
structure TransactionInfo where
  account : UserAddress
  memos : List Memo
  sig : Nat
  freeze_outputs : List RecordOpening
  history : Option TransactionHistoryEntry
  uid : Option Nat
  inputs : List RecordOpening
  outputs : List RecordOpening
deriving DecidableEq, Repr

/-- A CAPE ledger transaction (`cape_state`, not in src/): an ordinary AAP
transaction, or a burn carrying the transfer note together with the plaintext
record opening of its payout output. -/
inductive CapeTransaction where
  | aap (note : TransferNote)
  | burn (xfr : TransferNote) (ro : RecordOpening)
deriving DecidableEq, Repr

/-- A CAPE ledger transition (`cape_ledger`, not in src/): a transaction, or
a wrap staged by the contract. -/
inductive CapeTransition where
  | transaction (txn : CapeTransaction)
  | wrap (ro : RecordOpening)
deriving DecidableEq, Repr

/-- Opaque handle correlating a bridge operation with the underlying
submitted transfer (modelled as an index into the submission log). -/
structure TransactionReceipt where
  uid : Nat
deriving DecidableEq, Repr

/-- Modelled from the spec: the state behind a concrete `CapeWalletBackend`
(no implementation is in src/, only the trait and its contracts).
`registry` is the ERC20 asset registry mapping asset definitions to their
`(erc20_code, sponsor)` pairing; `keys` resolves owner addresses to shielded
public keys; `wraps` logs every `wrap_erc20` call (each an external debit). -/
structure CapeBackendState where
  registry : List (AssetDefinition × Erc20Code × EthereumAddr)
  keys : List (UserAddress × UserPubKey)
  wraps : List (Erc20Code × EthereumAddr × RecordOpening)
deriving DecidableEq, Repr

/-- Modelled from the spec: `register_wrapped_asset` persists a registry
entry; it must fail, mutating nothing, if `asset` already has a registered
token code. -/
def register_wrapped_asset (st : CapeBackendState) (asset : AssetDefinition)
    (erc20_code : Erc20Code) (sponsor : EthereumAddr) :
    Except WalletError CapeBackendState :=
  match st.registry.find? (fun e => e.1 == asset) with
  | some _ => .error .assetAlreadyRegistered
  | none => .ok { st with registry := (asset, erc20_code, sponsor) :: st.registry }

/-- Modelled from the spec: `get_wrapped_erc20_code` returns the ERC20 code
registered for a CAPE asset, failing if the asset is not registered. -/
def get_wrapped_erc20_code (st : CapeBackendState) (asset : AssetDefinition) :
    Except WalletError Erc20Code :=
  match st.registry.find? (fun e => e.1 == asset) with
  | some e => .ok e.2.1
  | none => .error .unregisteredAsset

/-- Modelled from the spec: `get_public_key` resolves a logical owner address
to a shielded public key, failing if unknown. -/
def get_public_key (st : CapeBackendState) (owner : UserAddress) :
    Except WalletError UserPubKey :=
  match st.keys.find? (fun e => e.1 == owner) with
  | some e => .ok e.2
  | none => .error .unknownOwner

/-- Modelled from the spec: `wrap_erc20` instructs the backend to debit the
external account and stage the shielded record; we log the call (the external
debit) in `wraps`. -/
def wrap_erc20 (st : CapeBackendState) (erc20_code : Erc20Code)
    (src_addr : EthereumAddr) (ro : RecordOpening) :
    Except WalletError CapeBackendState :=
  .ok { st with wraps := (erc20_code, src_addr, ro) :: st.wraps }

/-- The wallet state guarded by the lock of the wallet: the backend, its
library of known asset definitions (used by the generic transfer builder to
resolve an asset code), the wallet-held randomness source (a counter standing
for `state.rng()`), and the log of transactions submitted through the generic
submission path (most recent first). -/
structure CapeWalletState where
  backend : CapeBackendState
  assets : List AssetDefinition
  rng : Nat
  submitted : List (CapeTransition × TransactionInfo)
deriving DecidableEq, Repr

/-- `CapeWallet::sponsor`: derives the asset code from the description of
`(erc20_code, sponsor_addr)`, builds the asset definition with the supplied
policy, and registers the wrapped asset with the backend.  On any error the
wallet state is unchanged. -/
def sponsor (w : CapeWalletState) (erc20_code : Erc20Code)
    (sponsor_addr : EthereumAddr) (aap_asset_policy : AssetPolicy) :
    Except WalletError AssetDefinition × CapeWalletState :=
  let description := erc20_asset_description erc20_code sponsor_addr
  let code := AssetCode.new_foreign description
  match AssetDefinition.new code aap_asset_policy with
  | .error e => (.error e, w)
  | .ok asset =>
    match register_wrapped_asset w.backend asset erc20_code sponsor_addr with
    | .error e => (.error e, w)
    | .ok b => (.ok asset, { w with backend := b })

/-- `CapeWallet::wrap`: resolves the ERC20 code of the target asset, resolves
the public key of the owner, constructs an unfrozen record opening with fresh
randomness, and calls `wrap_erc20`.  On any error before `wrap_erc20` the
wallet state is unchanged. -/
def wrap (w : CapeWalletState) (src_addr : EthereumAddr)
    (aap_asset : AssetDefinition) (owner : UserAddress) (amount : Nat) :
    Except WalletError Unit × CapeWalletState :=
  match get_wrapped_erc20_code w.backend aap_asset with
  | .error e => (.error e, w)
  | .ok erc20_code =>
    match get_public_key w.backend owner with
    | .error e => (.error e, w)
    | .ok pub_key =>
      let ro := RecordOpening.new w.rng amount aap_asset pub_key false
      match wrap_erc20 w.backend erc20_code src_addr ro with
      | .error e => (.error e, { w with rng := w.rng + 1 })
      | .ok b => (.ok (), { w with backend := b, rng := w.rng + 1 })

/-- Modelled from the spec: the fee asset of the shielded ledger, the asset
type of fee inputs and fee-change outputs. -/
def nativeAssetDefinition : AssetDefinition := ⟨.native, ⟨true⟩⟩

/-- Helper of the modelled transfer builder: resolve each `(recipient,
amount)` pair to a payout record opening with fresh blinding, failing if a
recipient has an unknown public key. -/
def resolve_outputs (st : CapeBackendState) (adef : AssetDefinition) :
    Nat → List (UserAddress × Nat) → Except WalletError (List RecordOpening)
  | _, [] => .ok []
  | rng, (addr, amt) :: rest =>
    match get_public_key st addr with
    | .error e => .error e
    | .ok pk =>
      match resolve_outputs st adef (rng + 1) rest with
      | .error e => .error e
      | .ok ros => .ok (RecordOpening.new rng amt adef pk false :: ros)

/-- Modelled from the spec: the generic transfer builder
(`Wallet::build_transfer` of the generic wallet core, not in src/).  Given
`(account, asset_code, receivers, fee, bound_data, shape hint)` it builds a
transfer whose payout outputs go to the receivers, with a separate fee-change
output owned by the account, embedding `bound_data` as the
proof-bound data and honouring the requested input/output shape.  The spent
input records and the fee-change amount are internal to the generic wallet
and not modelled (the change amount is set to 0). -/
def build_transfer (w : CapeWalletState) (account : UserAddress)
    (asset : AssetCode) (receivers : List (UserAddress × Nat)) (fee : Nat)
    (bound_data : List Nat) (xfr_size : Option (Nat × Nat)) :
    Except WalletError TransferInfo × CapeWalletState :=
  match get_public_key w.backend account with
  | .error e => (.error e, w)
  | .ok pk =>
    match w.assets.find? (fun a => a.code == asset) with
    | none => (.error .backendError, w)
    | some adef =>
      let (nin, nout) := xfr_size.getD (receivers.length + 1, receivers.length + 1)
      if nout = receivers.length + 1 then
        match resolve_outputs w.backend adef w.rng receivers with
        | .error e => (.error e, w)
        | .ok payouts =>
          let fee_ro := RecordOpening.new (w.rng + receivers.length) 0
            nativeAssetDefinition pk false
          let outputs := payouts ++ [fee_ro]
          let note : TransferNote :=
            { inputs_nullifiers := List.range nin
              output_commitments := outputs.map (fun ro => ⟨ro⟩)
              proof_bound_data := bound_data }
          (.ok { note := note, owner_address := account,
                 sig_keypair := w.rng + receivers.length + 1,
                 fee_output := some fee_ro, history := ⟨.send⟩,
                 inputs := [], outputs := outputs },
           { w with rng := w.rng + receivers.length + 2 })
      else (.error .backendError, w)

/-- Modelled from the spec: `Wallet::generate_memos` (generic wallet core,
not in src/) generates one memo per given output, signed with the
signing keypair. -/
def generate_memos (w : CapeWalletState) (outputs : List RecordOpening)
    (sig_keypair : Nat) :
    Except WalletError (List Memo × Nat) × CapeWalletState :=
  (.ok (outputs.map (fun ro => ⟨ro⟩), sig_keypair), w)

/-- Modelled from the spec: `Wallet::submit` (generic wallet core, not in
src/), the generic submission path — records the ledger transition with its
transaction metadata and returns a receipt. -/
def submit (w : CapeWalletState) (txn : CapeTransition)
    (info : TransactionInfo) :
    Except WalletError TransactionReceipt × CapeWalletState :=
  (.ok ⟨w.submitted.length⟩, { w with submitted := (txn, info) :: w.submitted })

/-- Modelled from the spec: `CAPE_BURN_MAGIC_BYTES` (cape_state, not in
src/), the fixed magic marker prefixed to the destination address in a burn
proof-bound data of the note. -/
def CAPE_BURN_MAGIC_BYTES : List Nat := [67, 65, 80, 69, 32, 98, 117, 114, 110]

/-- `CapeWallet::burn`: assembles the burn bound data (magic marker followed
by the destination address), builds a 2-input/2-output transfer paying
`amount` back to `account` itself, generates memos for the fee-change output
only, tags the history entry as a burn, and submits the note wrapped in a
burn-tagged ledger transition carrying the opening of the payout output.  The
`assert!`/`assert_eq!`/indexing panics of the source are embedded as the
distinguished `internalError`. -/
def burn (w : CapeWalletState) (account : UserAddress)
    (dst_addr : EthereumAddr) (aap_asset : AssetCode) (amount fee : Nat) :
    Except WalletError TransactionReceipt × CapeWalletState :=
  let bound_data := CAPE_BURN_MAGIC_BYTES ++ dst_addr.bytes
  match build_transfer w account aap_asset [(account, amount)] fee bound_data
      (some (2, 2)) with
  | (.error e, w₁) => (.error e, w₁)
  | (.ok xfr_info, w₁) =>
    match xfr_info.fee_output with
    | none => (.error .internalError, w₁)
    | some fee_ro =>
      match generate_memos w₁ [fee_ro] xfr_info.sig_keypair with
      | (.error e, w₂) => (.error e, w₂)
      | (.ok (memos, sig), w₂) =>
        let txn_info : TransactionInfo :=
          { account := xfr_info.owner_address, memos := memos, sig := sig,
            freeze_outputs := [],
            history := some { xfr_info.history with kind := .burn },
            uid := none, inputs := xfr_info.inputs,
            outputs := xfr_info.outputs }
        if xfr_info.note.inputs_nullifiers.length = 2 ∧
            xfr_info.note.output_commitments.length = 2 then
          match txn_info.outputs with
          | [] => (.error .internalError, w₂)
          | ro₀ :: _ =>
            submit w₂ (.transaction (.burn xfr_info.note ro₀)) txn_info
        else (.error .internalError, w₂)

/-- Parse proof-bound data back into the burn marker and the destination
address bytes, as a consumer of a burn note would. -/
def parse_burn_data (d : List Nat) : Option (List Nat × List Nat) :=
  if d.take CAPE_BURN_MAGIC_BYTES.length = CAPE_BURN_MAGIC_BYTES then
    some (CAPE_BURN_MAGIC_BYTES, d.drop CAPE_BURN_MAGIC_BYTES.length)
  else none

/-- A sample asset definition, for evaluating the operations on concrete
inputs. -/
def sampleAsset : AssetDefinition := ⟨.foreign [5], ⟨true⟩⟩

/-- A sample wallet state with one registered asset and one known owner key,
for evaluating the operations on concrete inputs. -/
def sampleWallet : CapeWalletState where
  backend :=
    { registry := [(sampleAsset, ⟨[9]⟩, ⟨[2]⟩)]
      keys := [(⟨1⟩, ⟨10⟩)]
      wraps := [] }
  assets := [sampleAsset]
  rng := 0
  submitted := []

/-- A wallet state with an empty backend, for evaluating the operations on
concrete inputs. -/
def emptyWallet : CapeWalletState where
  backend := { registry := [], keys := [], wraps := [] }
  assets := []
  rng := 0
  submitted := []

/-! ## Theorems -/

/-- Helper: `parse_burn_data` recovers the marker and the payload from any
bound data of the burn shape. -/
theorem parse_burn_data_append (b : List Nat) :
    parse_burn_data (CAPE_BURN_MAGIC_BYTES ++ b) =
      some (CAPE_BURN_MAGIC_BYTES, b) := by
  simp [parse_burn_data, List.take_left, List.drop_left]

/-- Helper: closed form of the modelled transfer builder on a single-receiver
call with shape hint `(2, 2)`, when the account key and the asset resolve. -/
theorem build_transfer_single_eq (w : CapeWalletState) (account : UserAddress)
    (asset : AssetCode) (amount fee : Nat) (bd : List Nat)
    (pk : UserPubKey) (adef : AssetDefinition)
    (hpk : get_public_key w.backend account = .ok pk)
    (hasset : w.assets.find? (fun a => a.code == asset) = some adef) :
    build_transfer w account asset [(account, amount)] fee bd (some (2, 2)) =
      (.ok { note :=
               { inputs_nullifiers := List.range 2
                 output_commitments :=
                   [⟨RecordOpening.new w.rng amount adef pk false⟩,
                    ⟨RecordOpening.new (w.rng + 1) 0 nativeAssetDefinition pk false⟩]
                 proof_bound_data := bd }
             owner_address := account
             sig_keypair := w.rng + 2
             fee_output :=
               some (RecordOpening.new (w.rng + 1) 0 nativeAssetDefinition pk false)
             history := ⟨.send⟩
             inputs := []
             outputs :=
               [RecordOpening.new w.rng amount adef pk false,
                RecordOpening.new (w.rng + 1) 0 nativeAssetDefinition pk false] },
       { w with rng := w.rng + 3 }) := by
  unfold build_transfer resolve_outputs
  rw [hpk, hasset]
  simp [resolve_outputs]

/-- Helper: closed form of `burn` when the account key and the asset resolve:
the burn succeeds and pushes onto the submission log a burn-tagged transition
carrying the assembled note and the payout opening, together with the
transaction metadata. -/
theorem burn_eq (w : CapeWalletState) (account : UserAddress)
    (dst : EthereumAddr) (asset : AssetCode) (amount fee : Nat)
    (pk : UserPubKey) (adef : AssetDefinition)
    (hpk : get_public_key w.backend account = .ok pk)
    (hasset : w.assets.find? (fun a => a.code == asset) = some adef) :
    burn w account dst asset amount fee =
      (.ok ⟨w.submitted.length⟩,
       { w with
         rng := w.rng + 3
         submitted :=
           (CapeTransition.transaction (CapeTransaction.burn
              { inputs_nullifiers := List.range 2
                output_commitments :=
                  [⟨RecordOpening.new w.rng amount adef pk false⟩,
                   ⟨RecordOpening.new (w.rng + 1) 0 nativeAssetDefinition pk false⟩]
                proof_bound_data := CAPE_BURN_MAGIC_BYTES ++ dst.bytes }
              (RecordOpening.new w.rng amount adef pk false)),
            { account := account
              memos := [⟨RecordOpening.new (w.rng + 1) 0 nativeAssetDefinition pk false⟩]
              sig := w.rng + 2
              freeze_outputs := []
              history := some ⟨.burn⟩
              uid := none
              inputs := []
              outputs :=
                [RecordOpening.new w.rng amount adef pk false,
                 RecordOpening.new (w.rng + 1) 0 nativeAssetDefinition pk false] })
           :: w.submitted }) := by
  unfold burn build_transfer resolve_outputs generate_memos submit
  rw [hpk, hasset]
  simp [resolve_outputs]

/-- Claim C1: calling `sponsor` twice with the same `(token_code,
sponsor_address, policy)` (hence the same derived asset definition) succeeds
the first time and fails the second time with the registry-conflict error;
the second call mutates nothing and the registry still maps the definition to
the first pairing only. -/
theorem sponsor_twice_conflict (w : CapeWalletState) (c : Erc20Code)
    (s : EthereumAddr) (p : AssetPolicy) (hp : p.valid = true)
    (hreg : w.backend.registry.find? (fun e =>
      e.1 == AssetDefinition.mk (AssetCode.new_foreign (erc20_asset_description c s)) p) = none) :
    ∃ w₁, sponsor w c s p =
        (.ok ⟨AssetCode.new_foreign (erc20_asset_description c s), p⟩, w₁) ∧
      sponsor w₁ c s p = (.error .assetAlreadyRegistered, w₁) ∧
      w₁.backend.registry.filter (fun e =>
        e.1 == AssetDefinition.mk (AssetCode.new_foreign (erc20_asset_description c s)) p) =
        [(⟨AssetCode.new_foreign (erc20_asset_description c s), p⟩, c, s)] := by
  refine ⟨{ w with backend :=
    { w.backend with registry :=
      (⟨AssetCode.new_foreign (erc20_asset_description c s), p⟩, c, s)
        :: w.backend.registry } }, ?_, ?_, ?_⟩
  · simp [sponsor, AssetDefinition.new, register_wrapped_asset, hp, hreg]
  · simp [sponsor, AssetDefinition.new, register_wrapped_asset, hp, List.find?]
  · have hall := List.find?_eq_none.mp hreg
    simp only [List.filter_cons]
    rw [if_pos (by simp)]
    rw [List.filter_eq_nil_iff.mpr]
    intro x hx
    exact hall x hx

/-- Witness for C1 at a concrete input: the empty wallet, token code `[9]`,
sponsor `[2]`, a valid policy. -/
theorem sponsor_twice_conflict_witness :
    ((⟨true⟩ : AssetPolicy).valid = true ∧
     emptyWallet.backend.registry.find? (fun e =>
       e.1 == AssetDefinition.mk
         (AssetCode.new_foreign (erc20_asset_description ⟨[9]⟩ ⟨[2]⟩)) ⟨true⟩) = none) ∧
    (∃ w₁, sponsor emptyWallet ⟨[9]⟩ ⟨[2]⟩ ⟨true⟩ =
        (.ok ⟨AssetCode.new_foreign (erc20_asset_description ⟨[9]⟩ ⟨[2]⟩), ⟨true⟩⟩, w₁) ∧
      sponsor w₁ ⟨[9]⟩ ⟨[2]⟩ ⟨true⟩ = (.error .assetAlreadyRegistered, w₁) ∧
      w₁.backend.registry.filter (fun e =>
        e.1 == AssetDefinition.mk
          (AssetCode.new_foreign (erc20_asset_description ⟨[9]⟩ ⟨[2]⟩)) ⟨true⟩) =
        [(⟨AssetCode.new_foreign (erc20_asset_description ⟨[9]⟩ ⟨[2]⟩), ⟨true⟩⟩, ⟨[9]⟩, ⟨[2]⟩)]) :=
  ⟨⟨rfl, rfl⟩, sponsor_twice_conflict emptyWallet ⟨[9]⟩ ⟨[2]⟩ ⟨true⟩ rfl rfl⟩

/-- Claim C2: after a successful registration of `(A, token_code, sponsor)`,
`get_wrapped_erc20_code A` returns exactly `token_code`. -/
theorem register_then_lookup (st st' : CapeBackendState) (a : AssetDefinition)
    (c : Erc20Code) (s : EthereumAddr)
    (h : register_wrapped_asset st a c s = .ok st') :
    get_wrapped_erc20_code st' a = .ok c := by
  unfold register_wrapped_asset at h
  split at h
  · exact absurd h (by simp)
  · simp only [Except.ok.injEq] at h
    subst h
    simp [get_wrapped_erc20_code, List.find?]

/-- Witness for C2 at a concrete input: registering the sample asset in an
empty backend and looking it up. -/
theorem register_then_lookup_witness :
    register_wrapped_asset ⟨[], [], []⟩ sampleAsset ⟨[9]⟩ ⟨[2]⟩ =
      .ok ⟨[(sampleAsset, ⟨[9]⟩, ⟨[2]⟩)], [], []⟩ ∧
    get_wrapped_erc20_code ⟨[(sampleAsset, ⟨[9]⟩, ⟨[2]⟩)], [], []⟩ sampleAsset =
      .ok ⟨[9]⟩ :=
  ⟨rfl, register_then_lookup ⟨[], [], []⟩ ⟨[(sampleAsset, ⟨[9]⟩, ⟨[2]⟩)], [], []⟩
    sampleAsset ⟨[9]⟩ ⟨[2]⟩ rfl⟩

/-- Claim C3: every valid burn assembles a transfer note with exactly 2 input
nullifiers and exactly 2 output commitments, and the transaction kind
recorded in the receipt history is Burn. -/
theorem burn_note_shape (w : CapeWalletState) (account : UserAddress)
    (dst : EthereumAddr) (asset : AssetCode) (amount fee : Nat)
    (pk : UserPubKey) (adef : AssetDefinition)
    (hpk : get_public_key w.backend account = .ok pk)
    (hasset : w.assets.find? (fun a => a.code == asset) = some adef) :
    ∃ r w₁ note ro info rest,
      burn w account dst asset amount fee = (.ok r, w₁) ∧
      w₁.submitted = (.transaction (.burn note ro), info) :: rest ∧
      note.inputs_nullifiers.length = 2 ∧
      note.output_commitments.length = 2 ∧
      info.history = some ⟨CapeTransactionKind.burn⟩ := by
  rw [burn_eq w account dst asset amount fee pk adef hpk hasset]
  exact ⟨_, _, _, _, _, _, rfl, rfl, rfl, rfl, rfl⟩

/-- Witness for C3 at a concrete input: burning 100 units of the sample asset
from the sample wallet. -/
theorem burn_note_shape_witness :
    (get_public_key sampleWallet.backend ⟨1⟩ = .ok ⟨10⟩ ∧
     sampleWallet.assets.find? (fun a => a.code == .foreign [5]) = some sampleAsset) ∧
    (∃ r w₁ note ro info rest,
      burn sampleWallet ⟨1⟩ ⟨[7, 7]⟩ (.foreign [5]) 100 1 = (.ok r, w₁) ∧
      w₁.submitted = (.transaction (.burn note ro), info) :: rest ∧
      note.inputs_nullifiers.length = 2 ∧
      note.output_commitments.length = 2 ∧
      info.history = some ⟨CapeTransactionKind.burn⟩) :=
  ⟨⟨rfl, rfl⟩,
   burn_note_shape sampleWallet ⟨1⟩ ⟨[7, 7]⟩ (.foreign [5]) 100 1 ⟨10⟩ sampleAsset rfl rfl⟩

/-- Claim C4: the bound auxiliary data of the burn note is exactly the burn
magic marker followed by the destination address bytes, and parsing it back
recovers the marker and the address with no loss. -/
theorem burn_bound_data_roundtrip (w : CapeWalletState) (account : UserAddress)
    (dst : EthereumAddr) (asset : AssetCode) (amount fee : Nat)
    (pk : UserPubKey) (adef : AssetDefinition)
    (hpk : get_public_key w.backend account = .ok pk)
    (hasset : w.assets.find? (fun a => a.code == asset) = some adef) :
    ∃ r w₁ note ro info rest,
      burn w account dst asset amount fee = (.ok r, w₁) ∧
      w₁.submitted = (.transaction (.burn note ro), info) :: rest ∧
      note.proof_bound_data = CAPE_BURN_MAGIC_BYTES ++ dst.bytes ∧
      parse_burn_data note.proof_bound_data =
        some (CAPE_BURN_MAGIC_BYTES, dst.bytes) := by
  rw [burn_eq w account dst asset amount fee pk adef hpk hasset]
  exact ⟨_, _, _, _, _, _, rfl, rfl, rfl, parse_burn_data_append dst.bytes⟩

/-- Witness for C4 at a concrete input: the destination address `[7, 7]`. -/
theorem burn_bound_data_roundtrip_witness :
    (get_public_key sampleWallet.backend ⟨1⟩ = .ok ⟨10⟩ ∧
     sampleWallet.assets.find? (fun a => a.code == .foreign [5]) = some sampleAsset) ∧
    (∃ r w₁ note ro info rest,
      burn sampleWallet ⟨1⟩ ⟨[7, 7]⟩ (.foreign [5]) 100 1 = (.ok r, w₁) ∧
      w₁.submitted = (.transaction (.burn note ro), info) :: rest ∧
      note.proof_bound_data = CAPE_BURN_MAGIC_BYTES ++ ([7, 7] : List Nat) ∧
      parse_burn_data note.proof_bound_data =
        some (CAPE_BURN_MAGIC_BYTES, ([7, 7] : List Nat))) :=
  ⟨⟨rfl, rfl⟩,
   burn_bound_data_roundtrip sampleWallet ⟨1⟩ ⟨[7, 7]⟩ (.foreign [5]) 100 1 ⟨10⟩
     sampleAsset rfl rfl⟩

/-- Claim C5: `wrap` on an asset with no registry entry fails with the
unregistered-asset error, leaves the wallet state unchanged, and never
invokes `wrap_erc20` (the external-debit log is untouched). -/
theorem wrap_unregistered_fails (w : CapeWalletState) (src : EthereumAddr)
    (a : AssetDefinition) (owner : UserAddress) (amount : Nat)
    (h : w.backend.registry.find? (fun e => e.1 == a) = none) :
    wrap w src a owner amount = (.error .unregisteredAsset, w) ∧
    (wrap w src a owner amount).2.backend.wraps = w.backend.wraps := by
  unfold wrap get_wrapped_erc20_code
  rw [h]
  exact ⟨rfl, rfl⟩

/-- Witness for C5 at a concrete input: wrapping an asset absent from the
sample registry. -/
theorem wrap_unregistered_fails_witness :
    sampleWallet.backend.registry.find? (fun e =>
      e.1 == AssetDefinition.mk (.foreign [6]) ⟨true⟩) = none ∧
    (wrap sampleWallet ⟨[2]⟩ ⟨.foreign [6], ⟨true⟩⟩ ⟨1⟩ 100 =
      (.error .unregisteredAsset, sampleWallet) ∧
     (wrap sampleWallet ⟨[2]⟩ ⟨.foreign [6], ⟨true⟩⟩ ⟨1⟩ 100).2.backend.wraps =
      sampleWallet.backend.wraps) :=
  ⟨rfl, wrap_unregistered_fails sampleWallet ⟨[2]⟩ ⟨.foreign [6], ⟨true⟩⟩ ⟨1⟩ 100 rfl⟩

/-- Claim C6: the asset code returned by `sponsor` is derived
deterministically from `(token_code, sponsor_address)` alone — two successful
sponsor calls with the same token code and sponsor address, from any wallet
states and with any policies, derive the same code, namely the
domain-separated foreign code of the description string. -/
theorem sponsor_code_deterministic (w w' : CapeWalletState) (c : Erc20Code)
    (s : EthereumAddr) (p p' : AssetPolicy) (a a' : AssetDefinition)
    (h : (sponsor w c s p).1 = .ok a) (h' : (sponsor w' c s p').1 = .ok a') :
    a.code = a'.code ∧
    a.code = AssetCode.new_foreign (erc20_asset_description c s) := by
  unfold sponsor AssetDefinition.new at h h'
  by_cases hp : p.valid
  · simp only [hp, if_true] at h
    by_cases hp' : p'.valid
    · simp only [hp', if_true] at h'
      split at h
      · simp at h
      · split at h'
        · simp at h'
        · simp only [Except.ok.injEq] at h h'
          subst h h'
          exact ⟨rfl, rfl⟩
    · simp [hp'] at h'
  · simp [hp] at h

/-- Witness for C6 at concrete inputs: sponsoring the same pairing from the
empty wallet and from the sample wallet derives the same code. -/
theorem sponsor_code_deterministic_witness :
    ((sponsor emptyWallet ⟨[9]⟩ ⟨[2]⟩ ⟨true⟩).1 =
      .ok ⟨AssetCode.new_foreign (erc20_asset_description ⟨[9]⟩ ⟨[2]⟩), ⟨true⟩⟩ ∧
     (sponsor sampleWallet ⟨[9]⟩ ⟨[2]⟩ ⟨true⟩).1 =
      .ok ⟨AssetCode.new_foreign (erc20_asset_description ⟨[9]⟩ ⟨[2]⟩), ⟨true⟩⟩) ∧
    ((AssetDefinition.mk (AssetCode.new_foreign (erc20_asset_description ⟨[9]⟩ ⟨[2]⟩)) ⟨true⟩).code =
      (AssetDefinition.mk (AssetCode.new_foreign (erc20_asset_description ⟨[9]⟩ ⟨[2]⟩)) ⟨true⟩).code ∧
     (AssetDefinition.mk (AssetCode.new_foreign (erc20_asset_description ⟨[9]⟩ ⟨[2]⟩)) ⟨true⟩).code =
      AssetCode.new_foreign (erc20_asset_description ⟨[9]⟩ ⟨[2]⟩)) :=
  ⟨⟨rfl, rfl⟩,
   sponsor_code_deterministic emptyWallet sampleWallet ⟨[9]⟩ ⟨[2]⟩ ⟨true⟩ ⟨true⟩
     ⟨AssetCode.new_foreign (erc20_asset_description ⟨[9]⟩ ⟨[2]⟩), ⟨true⟩⟩
     ⟨AssetCode.new_foreign (erc20_asset_description ⟨[9]⟩ ⟨[2]⟩), ⟨true⟩⟩ rfl rfl⟩

/-- Claim C7: every successful burn builds a transfer whose fee-change output
is present, and generates exactly one memo, covering only that fee-change
output and not the burn payout output. -/
theorem burn_fee_output_memo (w : CapeWalletState) (account : UserAddress)
    (dst : EthereumAddr) (asset : AssetCode) (amount fee : Nat)
    (pk : UserPubKey) (adef : AssetDefinition)
    (hpk : get_public_key w.backend account = .ok pk)
    (hasset : w.assets.find? (fun a => a.code == asset) = some adef) :
    ∃ xfr wmid fee_ro,
      build_transfer w account asset [(account, amount)] fee
          (CAPE_BURN_MAGIC_BYTES ++ dst.bytes) (some (2, 2)) = (.ok xfr, wmid) ∧
      xfr.fee_output = some fee_ro ∧
      ∃ r w₁ note payout info rest,
        burn w account dst asset amount fee = (.ok r, w₁) ∧
        w₁.submitted = (.transaction (.burn note payout), info) :: rest ∧
        info.memos = [⟨fee_ro⟩] ∧
        info.outputs.head? = some payout ∧
        Memo.mk payout ∉ info.memos := by
  rw [burn_eq w account dst asset amount fee pk adef hpk hasset,
    build_transfer_single_eq w account asset amount fee
      (CAPE_BURN_MAGIC_BYTES ++ dst.bytes) pk adef hpk hasset]
  refine ⟨_, _, _, rfl, rfl, _, _, _, _, _, _, rfl, rfl, rfl, rfl, ?_⟩
  simp [RecordOpening.new]

/-- Witness for C7 at a concrete input: burning 100 units of the sample asset
from the sample wallet. -/
theorem burn_fee_output_memo_witness :
    (get_public_key sampleWallet.backend ⟨1⟩ = .ok ⟨10⟩ ∧
     sampleWallet.assets.find? (fun a => a.code == .foreign [5]) = some sampleAsset) ∧
    (∃ xfr wmid fee_ro,
      build_transfer sampleWallet ⟨1⟩ (.foreign [5]) [(⟨1⟩, 100)] 1
          (CAPE_BURN_MAGIC_BYTES ++ ([7, 7] : List Nat)) (some (2, 2)) = (.ok xfr, wmid) ∧
      xfr.fee_output = some fee_ro ∧
      ∃ r w₁ note payout info rest,
        burn sampleWallet ⟨1⟩ ⟨[7, 7]⟩ (.foreign [5]) 100 1 = (.ok r, w₁) ∧
        w₁.submitted = (.transaction (.burn note payout), info) :: rest ∧
        info.memos = [⟨fee_ro⟩] ∧
        info.outputs.head? = some payout ∧
        Memo.mk payout ∉ info.memos) :=
  ⟨⟨rfl, rfl⟩,
   burn_fee_output_memo sampleWallet ⟨1⟩ ⟨[7, 7]⟩ (.foreign [5]) 100 1 ⟨10⟩
     sampleAsset rfl rfl⟩

/-- Claim C8: every successful burn submits, through the generic submission
path, a ledger-transition value tagged as a burn transaction, carrying the
assembled transfer note and the plaintext record opening of the burn payout
output — the single real output, which returns `amount` to the account
itself. -/
theorem burn_submits_burn_transition (w : CapeWalletState)
    (account : UserAddress) (dst : EthereumAddr) (asset : AssetCode)
    (amount fee : Nat) (pk : UserPubKey) (adef : AssetDefinition)
    (hpk : get_public_key w.backend account = .ok pk)
    (hasset : w.assets.find? (fun a => a.code == asset) = some adef) :
    ∃ r w₁ note payout info rest,
      burn w account dst asset amount fee = (.ok r, w₁) ∧
      w₁.submitted = (.transaction (.burn note payout), info) :: rest ∧
      info.outputs.head? = some payout ∧
      payout.amount = amount ∧
      payout.pub_key = pk ∧
      payout.asset_def = adef := by
  rw [burn_eq w account dst asset amount fee pk adef hpk hasset]
  exact ⟨_, _, _, _, _, _, rfl, rfl, rfl, rfl, rfl, rfl⟩

/-- Witness for C8 at a concrete input: burning 100 units of the sample asset
from the sample wallet. -/
theorem burn_submits_burn_transition_witness :
    (get_public_key sampleWallet.backend ⟨1⟩ = .ok ⟨10⟩ ∧
     sampleWallet.assets.find? (fun a => a.code == .foreign [5]) = some sampleAsset) ∧
    (∃ r w₁ note payout info rest,
      burn sampleWallet ⟨1⟩ ⟨[7, 7]⟩ (.foreign [5]) 100 1 = (.ok r, w₁) ∧
      w₁.submitted = (.transaction (.burn note payout), info) :: rest ∧
      info.outputs.head? = some payout ∧
      payout.amount = 100 ∧
      payout.pub_key = ⟨10⟩ ∧
      payout.asset_def = sampleAsset) :=
  ⟨⟨rfl, rfl⟩,
   burn_submits_burn_transition sampleWallet ⟨1⟩ ⟨[7, 7]⟩ (.foreign [5]) 100 1 ⟨10⟩
     sampleAsset rfl rfl⟩

/-- Claim C10: when the asset is registered but resolving the owner public
key fails, `wrap` returns the unknown-owner error and performs no backend
mutation: the external-debit log is untouched and the randomness source is
not consumed (no record opening is constructed). -/
theorem wrap_unknown_owner_fails (w : CapeWalletState) (src : EthereumAddr)
    (a : AssetDefinition) (owner : UserAddress) (amount : Nat)
    (entry : AssetDefinition × Erc20Code × EthereumAddr)
    (hreg : w.backend.registry.find? (fun e => e.1 == a) = some entry)
    (hkey : w.backend.keys.find? (fun e => e.1 == owner) = none) :
    wrap w src a owner amount = (.error .unknownOwner, w) ∧
    (wrap w src a owner amount).2.backend.wraps = w.backend.wraps ∧
    (wrap w src a owner amount).2.rng = w.rng := by
  unfold wrap get_wrapped_erc20_code get_public_key
  rw [hreg, hkey]
  exact ⟨rfl, rfl, rfl⟩

/-- Witness for C10 at a concrete input: the sample asset is registered but
the owner address `⟨2⟩` has no known key. -/
theorem wrap_unknown_owner_fails_witness :
    (sampleWallet.backend.registry.find? (fun e => e.1 == sampleAsset) =
       some (sampleAsset, ⟨[9]⟩, ⟨[2]⟩) ∧
     sampleWallet.backend.keys.find? (fun e => e.1 == (⟨2⟩ : UserAddress)) = none) ∧
    (wrap sampleWallet ⟨[2]⟩ sampleAsset ⟨2⟩ 100 = (.error .unknownOwner, sampleWallet) ∧
     (wrap sampleWallet ⟨[2]⟩ sampleAsset ⟨2⟩ 100).2.backend.wraps =
       sampleWallet.backend.wraps ∧
     (wrap sampleWallet ⟨[2]⟩ sampleAsset ⟨2⟩ 100).2.rng = sampleWallet.rng) :=
  ⟨⟨rfl, rfl⟩,
   wrap_unknown_owner_fails sampleWallet ⟨[2]⟩ sampleAsset ⟨2⟩ 100
     (sampleAsset, ⟨[9]⟩, ⟨[2]⟩) rfl rfl⟩

end Cape
